import Mathlib

/-
Verification of the filter-and-aggregation pipeline of the refugee population
dashboard (src/app_code.py).  The dashboard loads a CSV of population records,
preprocesses it (date parsing, numeric coercion of the age columns), applies a
date-range filter and five categorical multiselect filters, and renders KPI
totals, groupby-sum aggregations and exports over the filtered view.

The embedding below follows the source line by line:
  - `loadCsv`           : lines 90-104 (pd.read_csv inside try/except, no schema check)
  - `preprocessRow`     : lines 111-123 (df_processed: date conversion, to_numeric on ages)
  - `dateFilter`        : lines 143-148 (mask on reference_period_start/end)
  - `applyIsin`         : lines 188-197 (the five `if sel: df[df[col].isin(sel)]` guards)
  - `filterRecords`     : the whole filter chain, date mask first, then the five guards
  - `defaultSelection`  : lines 154-164 (multiselect default: first 3 sorted codes if > 3)
  - `renderDashboard`   : lines 200-229 (st.stop on empty view, else KPIs/aggregates/export)
  - `groupSum`          : lines 238, 553 (groupby on a column, then .sum() of population)
  - `addTrendRow`       : lines 463-464 (year and month columns added to df_filtered in the Trends tab)

Dates are modelled as (year, month, day) triples ordered through an injective
numeric key (valid calendar dates have month*100+day < 10000, so the key order
is exactly the calendar order pandas Timestamps use).  A pandas NaN cell is
modelled as `none`; pd.read_csv maps the literal text "N/A" to NaN, so a raw
population cell is `Option Nat` and an unparseable count arrives as `none`.
-/

structure Date where
  year : Int
  month : Nat
  day : Nat
deriving DecidableEq, Repr

def Date.key (d : Date) : Int := d.year * 10000 + (d.month : Int) * 100 + (d.day : Int)

def Date.le (a b : Date) : Prop := a.key ≤ b.key

instance (a b : Date) : Decidable (Date.le a b) :=
  inferInstanceAs (Decidable (a.key ≤ b.key))

/-- One row of the raw dataframe as produced by pd.read_csv (lines 73-95):
age cells are still raw text, a population cell that read_csv recognised as
NA (for example the literal text "N/A") is `none`. -/
structure RawRecord where
  origin_location_code : String
  origin_has_hrp : Bool
  origin_in_gho : Bool
  asylum_location_code : String
  asylum_has_hrp : Bool
  asylum_in_gho : Bool
  population_group : String
  gender : String
  age_range : String
  min_age : String
  max_age : String
  population : Option Nat
  reference_period_start : Date
  reference_period_end : Date
deriving DecidableEq, Repr

/-- One row of df_processed (lines 111-123): the age columns have been through
pd.to_numeric(errors=coerce).  `year` and `month` model the columns of the same
name: they do not exist after preprocessing (`none`) and are only created later
by the Trends tab (lines 463-464). -/
structure Record where
  origin_location_code : String
  origin_has_hrp : Bool
  origin_in_gho : Bool
  asylum_location_code : String
  asylum_has_hrp : Bool
  asylum_in_gho : Bool
  population_group : String
  gender : String
  age_range : String
  min_age : Option Nat
  max_age : Option Nat
  population : Option Nat
  reference_period_start : Date
  reference_period_end : Date
  year : Option Int
  month : Option Nat
deriving DecidableEq, Repr

def digitVal (c : Char) : Option Nat :=
  if c.toNat < 48 then none else if 57 < c.toNat then none else some (c.toNat - 48)

def parseNatAux : List Char → Nat → Option Nat
  | [], acc => some acc
  | c :: cs, acc =>
      match digitVal c with
      | some d => parseNatAux cs (acc * 10 + d)
      | none => none

/-- pd.to_numeric(cell, errors=coerce) on an age cell: a cell that is not a
plain decimal numeral (for example the text None) becomes missing. -/
def toNumeric (s : String) : Option Nat :=
  match s.data with
  | [] => none
  | l => parseNatAux l 0

/-- Lines 111-123: df_processed = df.copy(); date columns converted; min_age and
max_age coerced with pd.to_numeric(errors=coerce).  No row is dropped and the
population column is left untouched.  The year and month columns do not exist yet. -/
def preprocessRow (r : RawRecord) : Record :=
  { origin_location_code := r.origin_location_code
    origin_has_hrp := r.origin_has_hrp
    origin_in_gho := r.origin_in_gho
    asylum_location_code := r.asylum_location_code
    asylum_has_hrp := r.asylum_has_hrp
    asylum_in_gho := r.asylum_in_gho
    population_group := r.population_group
    gender := r.gender
    age_range := r.age_range
    min_age := toNumeric r.min_age
    max_age := toNumeric r.max_age
    population := r.population
    reference_period_start := r.reference_period_start
    reference_period_end := r.reference_period_end
    year := none
    month := none }

def preprocess (df : List RawRecord) : List Record := df.map preprocessRow

/-- The user-selected filter state of the sidebar (lines 136-185): an optional
inclusive date range (the `len(date_range) == 2` branch) and the five
multiselect value lists. -/
structure FilterSpec where
  dateRange : Option (Date × Date)
  origin_countries : List String
  asylum_countries : List String
  population_groups : List String
  genders : List String
  age_ranges : List String
deriving DecidableEq, Repr

/-- Line 145: the date mask of one record,
reference_period_start >= start_date and reference_period_end <= end_date. -/
def inDateRange (dr : Option (Date × Date)) (r : Record) : Bool :=
  match dr with
  | some p =>
      decide (Date.le p.1 r.reference_period_start) &&
      decide (Date.le r.reference_period_end p.2)
  | none => true

/-- Lines 143-148: when a complete range was picked the mask is applied,
otherwise df_filtered = df_processed. -/
def dateFilter (dr : Option (Date × Date)) (df : List Record) : List Record :=
  match dr with
  | some _ => df.filter (fun r => inDateRange dr r)
  | none => df

/-- One categorical guard of lines 188-197: `if sel: df = df[df[col].isin(sel)]`.
A falsy (empty) selection skips the guard entirely. -/
def applyIsin (df : List Record) (proj : Record → String) (sel : List String) : List Record :=
  if sel.isEmpty then df else df.filter (fun r => sel.contains (proj r))

/-- Lines 143-197: the full filter chain producing df_filtered. -/
def filterRecords (df : List Record) (s : FilterSpec) : List Record :=
  let d0 := dateFilter s.dateRange df
  let d1 := applyIsin d0 Record.origin_location_code s.origin_countries
  let d2 := applyIsin d1 Record.asylum_location_code s.asylum_countries
  let d3 := applyIsin d2 Record.population_group s.population_groups
  let d4 := applyIsin d3 Record.gender s.genders
  applyIsin d4 Record.age_range s.age_ranges

/-- The same chain with the gender dimension absent from the specification
(no gender key, hence no gender guard). -/
def filterRecordsOmitGender (df : List Record) (s : FilterSpec) : List Record :=
  let d0 := dateFilter s.dateRange df
  let d1 := applyIsin d0 Record.origin_location_code s.origin_countries
  let d2 := applyIsin d1 Record.asylum_location_code s.asylum_countries
  let d3 := applyIsin d2 Record.population_group s.population_groups
  applyIsin d3 Record.age_range s.age_ranges

/-- The all-unconstrained filter specification: no complete date range picked,
every multiselect empty. -/
def emptySpec : FilterSpec :=
  { dateRange := none
    origin_countries := []
    asylum_countries := []
    population_groups := []
    genders := []
    age_ranges := [] }

/-- True of a record that passes one categorical dimension of the
specification: an empty selection constrains nothing, otherwise membership. -/
def dimPass (sel : List String) (v : String) : Bool := sel.isEmpty || sel.contains v

/-- The conjunction of all six per-dimension predicates of a specification. -/
def satisfies (s : FilterSpec) (r : Record) : Bool :=
  inDateRange s.dateRange r &&
  dimPass s.origin_countries r.origin_location_code &&
  dimPass s.asylum_countries r.asylum_location_code &&
  dimPass s.population_groups r.population_group &&
  dimPass s.genders r.gender &&
  dimPass s.age_ranges r.age_range

/-- Series.sum over a column with NaN skipped (pandas skipna default):
missing measure cells contribute nothing. -/
def sumMeasure (m : Record → Option Nat) (rows : List Record) : Nat :=
  (rows.map (fun r => (m r).getD 0)).sum

/-- Lexicographic order on code points, the order Python sorted() and pandas
use on the string columns of this dataset. -/
def strLeAux : List Char → List Char → Bool
  | [], _ => true
  | _ :: _, [] => false
  | a :: as, b :: bs =>
      if a.toNat < b.toNat then true
      else if b.toNat < a.toNat then false
      else strLeAux as bs

def strLe (a b : String) : Bool := strLeAux a.data b.data

def insertSorted (a : String) : List String → List String
  | [] => [a]
  | b :: l => if strLe a b then a :: b :: l else b :: insertSorted a l

/-- Ascending insertion sort of a list of strings, modelling Python sorted(). -/
def sortStrings : List String → List String
  | [] => []
  | a :: l => insertSorted a (sortStrings l)

/-- The sorted distinct group keys of a groupby (pandas sorts group keys). -/
def groupKeys (kf : Record → String) (rows : List Record) : List String :=
  sortStrings (rows.map kf).dedup

/-- Lines 238 and 553: df.groupby(col)[measure].sum() as an association list
from group key to the sum of the measure over the rows of that key. -/
def groupSum (kf : Record → String) (m : Record → Option Nat) (rows : List Record) :
    List (String × Nat) :=
  (groupKeys kf rows).map (fun k => (k, sumMeasure m (rows.filter (fun r => kf r == k))))

/-- sorted(df[col].unique()). -/
def uniqueSorted (l : List String) : List String :=
  sortStrings l.dedup

/-- Lines 154-164: the multiselect default for the country dimensions,
sorted(unique)[:3] if len(unique) > 3 else sorted(unique). -/
def defaultSelection (l : List String) : List String :=
  if 3 < l.dedup.length then (uniqueSorted l).take 3 else uniqueSorted l

/-- Line 201: the warning shown before st.stop() on an empty filtered view. -/
def emptyWarning : String :=
  "No data available with the selected filters. Please adjust your filters."

/-- The downstream artefacts rendered from a non-empty filtered view:
the four KPI cards (lines 205-229), the first groupby aggregation (line 238)
and the export rows (line 640). -/
structure Rendered where
  totalPopulation : Nat
  originCount : Nat
  asylumCount : Nat
  groupCount : Nat
  popByGroup : List (String × Nat)
  exportRows : List Record
deriving DecidableEq, Repr

inductive StageResult where
  | stopped (msg : String)
  | page (r : Rendered)
deriving DecidableEq, Repr

def renderPage (view : List Record) : Rendered :=
  { totalPopulation := sumMeasure Record.population view
    originCount := (view.map Record.origin_location_code).dedup.length
    asylumCount := (view.map Record.asylum_location_code).dedup.length
    groupCount := (view.map Record.population_group).dedup.length
    popByGroup := groupSum Record.population_group Record.population view
    exportRows := view }

/-- Lines 200-229: `if df_filtered.empty: st.warning(...); st.stop()` halts the
script, so the KPI, aggregation and export stages only run on a non-empty view. -/
def renderDashboard (view : List Record) : StageResult :=
  if view.isEmpty then StageResult.stopped emptyWarning
  else StageResult.page (renderPage view)

/-- Lines 463-464 (Trends tab): the year and month columns of df_filtered
are assigned from reference_period_start, creating the two derived columns on
the already-filtered view. -/
def addTrendRow (r : Record) : Record :=
  { r with
    year := some r.reference_period_start.year
    month := some r.reference_period_start.month }

def addTrendFields (view : List Record) : List Record := view.map addTrendRow

/-- A parsed CSV file: a header row and data rows. -/
structure Csv where
  header : List String
  rows : List (List String)
deriving DecidableEq, Repr

/-- The columns the record schema requires (section 3 of the help text,
lines 726-739). -/
def requiredColumns : List String :=
  ["origin_location_code", "asylum_location_code", "population_group", "gender",
   "age_range", "min_age", "max_age", "population",
   "reference_period_start", "reference_period_end"]

/-- Lines 90-99: pd.read_csv wrapped in try/except.  The only failure mode is a
read error of the byte stream (modelled: no parse result at all); a CSV that
parses is accepted as-is, with no validation of its columns. -/
def loadCsv (source : Option Csv) : Except String Csv :=
  match source with
  | none => Except.error "Error loading file"
  | some csv => Except.ok csv

/-- The sample dataset of load_sample_data (lines 70-88); a Python None age
cell is the text None for pd.to_numeric, and all reference periods span 2022. -/
def sampleData : List RawRecord :=
  [⟨"AFG", true, true, "LKA", false, false, "RET", "f", "0-4", "0", "4",
      some 10, ⟨2022, 1, 1⟩, ⟨2022, 12, 31⟩⟩,
   ⟨"AFG", true, true, "PAK", true, true, "REF", "m", "5-11", "5", "11",
      some 50, ⟨2022, 1, 1⟩, ⟨2022, 12, 31⟩⟩,
   ⟨"AFG", true, true, "IRN", false, false, "REF", "f", "12-17", "12", "17",
      some 35, ⟨2022, 1, 1⟩, ⟨2022, 12, 31⟩⟩,
   ⟨"SYR", true, true, "TUR", false, false, "REF", "m", "18-59", "18", "59",
      some 100, ⟨2022, 1, 1⟩, ⟨2022, 12, 31⟩⟩,
   ⟨"SYR", true, true, "LBN", true, true, "REF", "f", "60+", "60", "None",
      some 40, ⟨2022, 1, 1⟩, ⟨2022, 12, 31⟩⟩,
   ⟨"SYR", true, true, "JOR", true, true, "REF", "m", "all", "None", "None",
      some 500, ⟨2022, 1, 1⟩, ⟨2022, 12, 31⟩⟩,
   ⟨"SOM", false, false, "KEN", true, true, "REF", "f", "0-4", "0", "4",
      some 25, ⟨2022, 1, 1⟩, ⟨2022, 12, 31⟩⟩,
   ⟨"SOM", false, false, "ETH", true, true, "REF", "m", "18-59", "18", "59",
      some 75, ⟨2022, 1, 1⟩, ⟨2022, 12, 31⟩⟩]

/-- A specification whose population-group selection matches no record of the
sample data, so the filtered view is empty. -/
def zzSpec : FilterSpec :=
  { emptySpec with population_groups := ["ZZZ"] }

/-- A raw row whose population cell was the literal text N/A, read by
pd.read_csv as NaN. -/
def naRaw : RawRecord :=
  ⟨"AFG", true, true, "PAK", true, true, "REF", "f", "0-4", "0", "4",
    none, ⟨2022, 1, 1⟩, ⟨2022, 12, 31⟩⟩

/-- A parsed CSV whose header lacks the required population column. -/
def csvMissingPopulation : Csv :=
  { header := ["origin_location_code", "asylum_location_code", "population_group",
               "gender", "age_range", "min_age", "max_age",
               "reference_period_start", "reference_period_end"]
    rows := [] }

/-- An extra raw row whose origin code ZWE is lexicographically last, giving a
dataset with four distinct origin codes. -/
def extraRaw : RawRecord :=
  ⟨"ZWE", false, false, "MOZ", false, false, "REF", "m", "18-59", "18", "59",
    some 12, ⟨2022, 1, 1⟩, ⟨2022, 12, 31⟩⟩

/-- The sample dataset extended with the ZWE row: four distinct origin codes. -/
def wideData : List RawRecord := sampleData ++ [extraRaw]

theorem mem_applyIsin {df : List Record} {proj : Record → String} {sel : List String}
    {r : Record} :
    r ∈ applyIsin df proj sel ↔ r ∈ df ∧ dimPass sel (proj r) = true := by
  unfold applyIsin dimPass
  cases hs : sel.isEmpty
  · simp [hs, List.mem_filter]
  · simp [hs]

theorem mem_dateFilter {df : List Record} {dr : Option (Date × Date)} {r : Record} :
    r ∈ dateFilter dr df ↔ r ∈ df ∧ inDateRange dr r = true := by
  cases dr
  · simp [dateFilter, inDateRange]
  · simp [dateFilter, List.mem_filter]

theorem sum_map_zero (ks : List String) : (ks.map (fun _ => (0 : Nat))).sum = 0 := by
  induction ks with
  | nil => rfl
  | cons k t ih => simp [ih]

theorem sum_map_split (f g : String → Nat) (ks : List String) :
    (ks.map (fun k => f k + g k)).sum = (ks.map f).sum + (ks.map g).sum := by
  induction ks with
  | nil => rfl
  | cons k t ih => simp [ih]; omega

theorem sum_map_indicator_not_mem (a : String) (c : Nat) (ks : List String) (h : a ∉ ks) :
    (ks.map (fun k => if a = k then c else 0)).sum = 0 := by
  induction ks with
  | nil => rfl
  | cons k t ih =>
    simp only [List.mem_cons, not_or] at h
    simp [h.1, ih h.2]

theorem sum_map_indicator_mem (a : String) (c : Nat) (ks : List String)
    (hnd : ks.Nodup) (ha : a ∈ ks) :
    (ks.map (fun k => if a = k then c else 0)).sum = c := by
  induction ks with
  | nil => cases ha
  | cons k t ih =>
    rcases List.mem_cons.mp ha with h | h
    · subst h
      have hnot : a ∉ t := (List.nodup_cons.mp hnd).1
      simp [sum_map_indicator_not_mem a c t hnot]
    · have hne : a ≠ k := by
        intro e
        subst e
        exact (List.nodup_cons.mp hnd).1 h
      simp [hne, ih (List.nodup_cons.mp hnd).2 h]

theorem sum_groups_eq (kf : Record → String) (m : Record → Option Nat)
    (rows : List Record) :
    ∀ ks : List String, ks.Nodup → (∀ r ∈ rows, kf r ∈ ks) →
      (ks.map (fun k => sumMeasure m (rows.filter (fun r => kf r == k)))).sum
        = sumMeasure m rows := by
  induction rows with
  | nil =>
    intro ks _ _
    simp [sumMeasure, sum_map_zero]
  | cons r rs ih =>
    intro ks hnd hcov
    have hcov2 : ∀ x ∈ rs, kf x ∈ ks := fun x hx => hcov x (List.mem_cons_of_mem _ hx)
    have hr : kf r ∈ ks := hcov r (List.mem_cons_self _ _)
    have hterm :
        (ks.map (fun k => sumMeasure m ((r :: rs).filter (fun x => kf x == k)))).sum
          = (ks.map (fun k => (if kf r = k then (m r).getD 0 else 0)
              + sumMeasure m (rs.filter (fun x => kf x == k)))).sum := by
      congr 1
      apply List.map_congr_left
      intro k _
      rw [List.filter_cons]
      by_cases h : kf r = k
      · simp [h, sumMeasure]
      · simp [h, sumMeasure]
    rw [hterm, sum_map_split, sum_map_indicator_mem (kf r) _ ks hnd hr, ih ks hnd hcov2]
    simp [sumMeasure]

theorem insertSorted_perm (a : String) (l : List String) :
    (insertSorted a l).Perm (a :: l) := by
  induction l with
  | nil => exact List.Perm.refl _
  | cons b t ih =>
    unfold insertSorted
    by_cases h : strLe a b
    · simp [h]
    · simp only [h, Bool.false_eq_true, if_false]
      exact (List.Perm.cons b ih).trans (List.Perm.swap a b t)

theorem sortStrings_perm (l : List String) : (sortStrings l).Perm l := by
  induction l with
  | nil => exact List.Perm.refl _
  | cons a t ih => exact (insertSorted_perm a (sortStrings t)).trans (List.Perm.cons a ih)

theorem groupSum_values_total (kf : Record → String) (m : Record → Option Nat)
    (rows : List Record) :
    ((groupSum kf m rows).map Prod.snd).sum = sumMeasure m rows := by
  unfold groupSum groupKeys
  rw [List.map_map]
  have hcomp : (Prod.snd ∘ fun k => (k, sumMeasure m (rows.filter (fun r => kf r == k))))
      = fun k => sumMeasure m (rows.filter (fun r => kf r == k)) := rfl
  rw [hcomp]
  have hperm := (sortStrings_perm (rows.map kf).dedup).map
      (fun k => sumMeasure m (rows.filter (fun r => kf r == k)))
  rw [hperm.sum_eq]
  exact sum_groups_eq kf m rows _ (List.nodup_dedup _)
    (fun r hr => List.mem_dedup.mpr (List.mem_map_of_mem kf hr))

/-- C1: a record is in the filtered view exactly when it is a record of the
dataset that satisfies every predicate of the specification (the date mask and
the five categorical dimensions, conjoined by the satisfies function), so every
record of the dataset that is left out falsifies at least one of the six
conjuncts. -/
theorem filtered_iff_satisfies_all_predicates (df : List Record) (s : FilterSpec)
    (r : Record) :
    r ∈ filterRecords df s ↔ r ∈ df ∧ satisfies s r = true := by
  unfold filterRecords satisfies
  simp only [mem_applyIsin, mem_dateFilter, Bool.and_eq_true]
  tauto

/-- C2: a specification whose gender selection is empty filters exactly like
the pipeline from which the gender dimension is absent altogether, for every
dataset and every setting of the remaining dimensions. -/
theorem empty_gender_selection_eq_omitted_dimension (df : List Record) (s : FilterSpec) :
    filterRecords df { s with genders := [] } = filterRecordsOmitGender df s := by
  simp [filterRecords, filterRecordsOmitGender, applyIsin]

/-- C3: conservation law of the groupby sum: for every dataset, specification,
grouping key and measure, the values of the aggregation of the filtered view
sum to the direct sum of the measure over the filtered view, so no record is
double-counted or omitted. -/
theorem aggregate_sum_conservation (df : List Record) (s : FilterSpec)
    (kf : Record → String) (m : Record → Option Nat) :
    ((groupSum kf m (filterRecords df s)).map Prod.snd).sum
      = sumMeasure m (filterRecords df s) :=
  groupSum_values_total kf m (filterRecords df s)

/-- C4 counterexample: on the sample data a specification selecting an unknown
population group produces an empty filtered view, and the dashboard stage then
stops with a warning instead of rendering the downstream KPI, aggregation and
export stages, contradicting the claim that those stages still execute. -/
theorem empty_view_stops_counterexample :
    filterRecords (preprocess sampleData) zzSpec = [] ∧
    renderDashboard (filterRecords (preprocess sampleData) zzSpec)
      = StageResult.stopped emptyWarning := by
  constructor
  · decide
  · decide

/-- C4 (amended): an empty filtered view is detected and handled, but by
warning and halting the script, so the downstream stages do not execute; only
a non-empty view reaches the KPI, aggregation and export stages. -/
theorem empty_view_halts_dashboard (df : List Record) (s : FilterSpec)
    (view2 : List Record)
    (h : filterRecords df s = []) (h2 : view2.isEmpty = false) :
    renderDashboard (filterRecords df s) = StageResult.stopped emptyWarning ∧
    renderDashboard view2 = StageResult.page (renderPage view2) := by
  constructor
  · rw [h]
    rfl
  · simp [renderDashboard, h2]

theorem empty_view_halts_dashboard_witness :
    renderDashboard (filterRecords (preprocess sampleData) zzSpec)
        = StageResult.stopped emptyWarning ∧
    renderDashboard (preprocess sampleData)
        = StageResult.page (renderPage (preprocess sampleData)) :=
  empty_view_halts_dashboard (preprocess sampleData) zzSpec (preprocess sampleData)
    (by decide) (by decide)

/-- C5 counterexample: a raw row whose population cell was the unparseable text
N/A (read as missing) survives preprocessing with its population still missing
and appears in a filtered view, contradicting the claim that such rows are
dropped at load time. -/
theorem unparseable_population_kept_counterexample :
    (preprocessRow naRaw).population = none ∧
    preprocessRow naRaw ∈ filterRecords (preprocess [naRaw]) emptySpec := by
  constructor
  · rfl
  · decide

/-- C5 (amended): preprocessing never drops a row: the output has the same
length, every preprocessed row is present, and the population cell is passed
through unchanged, so a row with a missing or unparseable population count is
retained (with a missing value) rather than removed. -/
theorem preprocess_retains_unparseable_population (raws : List RawRecord)
    (raw : RawRecord) (h : raw ∈ raws) :
    (preprocess raws).length = raws.length ∧
    preprocessRow raw ∈ preprocess raws ∧
    (preprocessRow raw).population = raw.population := by
  refine ⟨by simp [preprocess], List.mem_map_of_mem _ h, rfl⟩

theorem preprocess_retains_unparseable_population_witness :
    (preprocess [naRaw]).length = [naRaw].length ∧
    preprocessRow naRaw ∈ preprocess [naRaw] ∧
    (preprocessRow naRaw).population = naRaw.population :=
  preprocess_retains_unparseable_population [naRaw] naRaw (by decide)

/-- C6 counterexample: a parsed CSV whose header lacks the required population
column still loads successfully, contradicting the claim that load fails with
a SchemaError naming the first missing required column. -/
theorem load_missing_column_succeeds_counterexample :
    "population" ∈ requiredColumns ∧
    "population" ∉ csvMissingPopulation.header ∧
    loadCsv (some csvMissingPopulation) = Except.ok csvMissingPopulation := by
  refine ⟨by decide, by decide, rfl⟩

/-- C6 (amended): load performs no schema validation: every parseable CSV is
accepted even when a required column is missing from its header, and the only
failure mode is the generic read error for an unparseable source. -/
theorem load_ignores_missing_columns (csv : Csv) (c : String)
    (_h1 : c ∈ requiredColumns) (_h2 : c ∉ csv.header) :
    loadCsv (some csv) = Except.ok csv ∧
    loadCsv none = Except.error "Error loading file" :=
  ⟨rfl, rfl⟩

theorem load_ignores_missing_columns_witness :
    loadCsv (some csvMissingPopulation) = Except.ok csvMissingPopulation ∧
    loadCsv none = Except.error "Error loading file" :=
  load_ignores_missing_columns csvMissingPopulation "population" (by decide) (by decide)

/-- C7: filtering with the all-unconstrained specification returns the whole
dataset unchanged, same records in the same order. -/
theorem filter_emptySpec_identity (df : List Record) : filterRecords df emptySpec = df := by
  simp [filterRecords, emptySpec, dateFilter, applyIsin]

/-- C8 counterexample: after preprocessing the year column does not exist, yet
after the Trends stage runs on a filtered view the records carry a year value,
so the derived field is created after filtering rather than once at load time,
contradicting the claim. -/
theorem derived_fields_not_at_load_counterexample :
    (preprocessRow naRaw).year = none ∧
    (addTrendFields (filterRecords (preprocess [naRaw]) emptySpec)).map Record.year
      = [some 2022] := by
  constructor
  · rfl
  · decide

/-- C8 (amended): the loader computes no derived fields: every preprocessed
record has no year and no month value; the Trends stage, running on the
already-filtered view, is what creates both fields. -/
theorem derived_fields_created_after_filtering (raws : List RawRecord)
    (view : List Record) (r r2 : Record)
    (h1 : r ∈ preprocess raws) (h2 : r2 ∈ addTrendFields view) :
    (r.year = none ∧ r.month = none) ∧
    (r2.year.isSome = true ∧ r2.month.isSome = true) := by
  constructor
  · obtain ⟨raw, hraw, hEq⟩ := List.mem_map.mp h1
    subst hEq
    exact ⟨rfl, rfl⟩
  · obtain ⟨r0, hr0, hEq⟩ := List.mem_map.mp h2
    subst hEq
    exact ⟨rfl, rfl⟩

theorem derived_fields_created_after_filtering_witness :
    ((preprocessRow naRaw).year = none ∧ (preprocessRow naRaw).month = none) ∧
    ((addTrendRow (preprocessRow naRaw)).year.isSome = true ∧
     (addTrendRow (preprocessRow naRaw)).month.isSome = true) :=
  derived_fields_created_after_filtering [naRaw] [preprocessRow naRaw]
    (preprocessRow naRaw) (addTrendRow (preprocessRow naRaw)) (by decide) (by decide)

/-- C9: the date predicate has inclusive containment semantics: a record passes
the date filter exactly when its whole reference period lies inside the
selected range, start on or after the selected start and end on or before the
selected end; a period extending past either bound is excluded. -/
theorem date_filter_containment (df : List Record) (sd ed : Date) (r : Record) :
    r ∈ dateFilter (some (sd, ed)) df ↔
      r ∈ df ∧ Date.le sd r.reference_period_start ∧ Date.le r.reference_period_end ed := by
  rw [mem_dateFilter]
  simp [inDateRange]

/-- C10: with more than 3 distinct origin codes the default selection is the
lexicographically first 3 of the sorted distinct codes, a dataset record whose
code is outside those 3 is silently omitted by the default-filtered view, and
with at most 3 distinct codes the default selects all of them. -/
theorem default_country_selection_truncates (df : List Record) (codes2 : List String)
    (r : Record) (_hmem : r ∈ df)
    (hgt : 3 < (df.map Record.origin_location_code).dedup.length)
    (hout : r.origin_location_code ∉ (uniqueSorted (df.map Record.origin_location_code)).take 3)
    (hle : codes2.dedup.length ≤ 3) :
    defaultSelection (df.map Record.origin_location_code)
        = (uniqueSorted (df.map Record.origin_location_code)).take 3 ∧
    r ∉ applyIsin df Record.origin_location_code
        (defaultSelection (df.map Record.origin_location_code)) ∧
    defaultSelection codes2 = uniqueSorted codes2 := by
  have hdef : defaultSelection (df.map Record.origin_location_code)
      = (uniqueSorted (df.map Record.origin_location_code)).take 3 := by
    simp [defaultSelection, hgt]
  refine ⟨hdef, ?_, by simp [defaultSelection, Nat.not_lt.mpr hle]⟩
  intro hin
  rw [hdef] at hin
  have hm := mem_applyIsin.mp hin
  have hlen : (uniqueSorted (df.map Record.origin_location_code)).length
      = (df.map Record.origin_location_code).dedup.length :=
    (sortStrings_perm _).length_eq
  have hlen3 : ((uniqueSorted (df.map Record.origin_location_code)).take 3).length = 3 := by
    rw [List.length_take]
    omega
  have hne : ((uniqueSorted (df.map Record.origin_location_code)).take 3).isEmpty = false := by
    cases hE : ((uniqueSorted (df.map Record.origin_location_code)).take 3).isEmpty
    · rfl
    · rw [List.isEmpty_iff.mp hE] at hlen3
      simp at hlen3
  simp only [dimPass, hne, Bool.false_or] at hm
  exact hout (List.mem_of_elem_eq_true hm.2)

theorem default_country_selection_truncates_witness :
    defaultSelection ((preprocess wideData).map Record.origin_location_code)
        = (uniqueSorted ((preprocess wideData).map Record.origin_location_code)).take 3 ∧
    preprocessRow extraRaw ∉ applyIsin (preprocess wideData) Record.origin_location_code
        (defaultSelection ((preprocess wideData).map Record.origin_location_code)) ∧
    defaultSelection ["AFG"] = uniqueSorted ["AFG"] :=
  default_country_selection_truncates (preprocess wideData) ["AFG"]
    (preprocessRow extraRaw) (by decide) (by decide) (by decide) (by decide)
